import Mathlib

/-!
Verification of the Qucanft astrology toolkit's angular-computation core.

The Python modules `qucanft/zodiac.py`, `qucanft/aspects.py` and
`qucanft/houses.py` are shallowly embedded here over the rationals:
Python's float `%` operator (sign follows divisor) is modelled by
`pymod a b = a - b * ⌊a / b⌋`, Python's `int()` (truncation toward zero)
by `pyint`, dictionaries keyed by 1..12 by functions `ℕ → ℚ`, and the
printed warning of `calculate_houses` by a boolean flag in its result.
All definitions follow the source line by line.
-/

namespace Qucanft

/-- Python's `a % b` on floats: the remainder whose sign follows the divisor,
`a - b * floor (a / b)`. -/
def pymod (a b : ℚ) : ℚ := a - b * ⌊a / b⌋

/-- `x % 360`, the normalization to `[0, 360)` used throughout the source. -/
def normalize (a : ℚ) : ℚ := pymod a 360

/-- Python's `int()` on a float: truncation toward zero. -/
def pyint (q : ℚ) : ℤ := if q < 0 then -⌊-q⌋ else ⌊q⌋

/-- Python's `f"{n:02d}"` for the integers this code prints (0 ≤ n < 60). -/
def pad2 (n : ℤ) : String := if 0 ≤ n ∧ n < 10 then "0" ++ toString n else toString n

/-- Python's `str.lower()` on the ASCII identifiers this code compares
(structurally recursive, unlike `String.toLower`, so proofs can evaluate it). -/
def strLower (s : String) : String := String.mk (s.data.map Char.toLower)

/- ### Basic facts about `pymod` and `normalize` -/

theorem pymod_nonneg (a : ℚ) {b : ℚ} (hb : 0 < b) : 0 ≤ pymod a b := by
  have h : (⌊a / b⌋ : ℚ) ≤ a / b := Int.floor_le _
  have h2 : b * (⌊a / b⌋ : ℚ) ≤ b * (a / b) := by
    exact mul_le_mul_of_nonneg_left h (le_of_lt hb)
  have h3 : b * (a / b) = a := by field_simp
  simp only [pymod]
  linarith

theorem pymod_lt (a : ℚ) {b : ℚ} (hb : 0 < b) : pymod a b < b := by
  have h : a / b < (⌊a / b⌋ : ℚ) + 1 := Int.lt_floor_add_one _
  have h2 : b * (a / b) < b * ((⌊a / b⌋ : ℚ) + 1) := by
    exact mul_lt_mul_of_pos_left h hb
  have h3 : b * (a / b) = a := by field_simp
  simp only [pymod]
  nlinarith

theorem pymod_eq_self {a b : ℚ} (hb : 0 < b) (h0 : 0 ≤ a) (h1 : a < b) :
    pymod a b = a := by
  have hfl : ⌊a / b⌋ = 0 := by
    rw [Int.floor_eq_zero_iff]
    constructor
    · exact div_nonneg h0 (le_of_lt hb)
    · rw [div_lt_one hb]; exact h1
  simp [pymod, hfl]

theorem pymod_add_mul_int (a b : ℚ) (k : ℤ) : pymod (a + b * k) b = pymod a b := by
  rcases eq_or_ne b 0 with hb | hb
  · simp [pymod, hb]
  · have h : (a + b * k) / b = a / b + k := by field_simp; ring
    simp only [pymod, h, Int.floor_add_int]
    push_cast
    ring

theorem normalize_nonneg (a : ℚ) : 0 ≤ normalize a :=
  pymod_nonneg a (by norm_num)

theorem normalize_lt (a : ℚ) : normalize a < 360 :=
  pymod_lt a (by norm_num)

theorem normalize_eq_self {a : ℚ} (h0 : 0 ≤ a) (h1 : a < 360) : normalize a = a :=
  pymod_eq_self (by norm_num) h0 h1

theorem normalize_add_int_mul (a : ℚ) (k : ℤ) : normalize (a + 360 * k) = normalize a :=
  pymod_add_mul_int a 360 k

theorem normalize_add_360 (a : ℚ) : normalize (a + 360) = normalize a := by
  have h := normalize_add_int_mul a 1
  push_cast at h
  simpa using h

theorem normalize_neg_side {a : ℚ} (h0 : -360 ≤ a) (h1 : a < 0) :
    normalize a = a + 360 := by
  rw [← normalize_add_360 a]
  exact normalize_eq_self (by linarith) (by linarith)

theorem normalize_exists_int (a : ℚ) : ∃ k : ℤ, normalize a = a - 360 * k :=
  ⟨⌊a / 360⌋, rfl⟩

theorem normalize_normalize (a : ℚ) : normalize (normalize a) = normalize a :=
  normalize_eq_self (normalize_nonneg a) (normalize_lt a)

theorem normalize_add_left (a b : ℚ) : normalize (normalize a + b) = normalize (a + b) := by
  obtain ⟨k, hk⟩ := normalize_exists_int a
  rw [hk]
  have h : a - 360 * k + b = (a + b) + 360 * (-k : ℤ) := by push_cast; ring
  rw [h, normalize_add_int_mul]

theorem normalize_sub_normalize (a b : ℚ) :
    normalize (normalize a - normalize b) = normalize (a - b) := by
  obtain ⟨k, hk⟩ := normalize_exists_int a
  obtain ⟨m, hm⟩ := normalize_exists_int b
  rw [hk, hm]
  have h : a - 360 * k - (b - 360 * m) = (a - b) + 360 * ((m - k : ℤ)) := by
    push_cast; ring
  rw [h, normalize_add_int_mul]

theorem normalize_eq_normalize_iff (a b : ℚ) :
    normalize a = normalize b ↔ ∃ k : ℤ, a - b = 360 * k := by
  constructor
  · intro h
    obtain ⟨k, hk⟩ := normalize_exists_int a
    obtain ⟨m, hm⟩ := normalize_exists_int b
    refine ⟨k - m, ?_⟩
    have := hk.symm.trans (h.trans hm)
    push_cast
    linarith
  · rintro ⟨k, hk⟩
    have h : a = b + 360 * k := by linarith
    rw [h, normalize_add_int_mul]

/- ### ZodiacCalculator (qucanft/zodiac.py) -/

/-- One entry of `ZodiacCalculator.ZODIAC_SIGNS`. -/
structure SignInfo where
  name : String
  symbol : String
  element : String
  quality : String
  ruler : String
deriving DecidableEq

/-- The fixed ordered sign table of `zodiac.py`. -/
def ZODIAC_SIGNS : List SignInfo :=
  [ ⟨"Aries", "♈", "Fire", "Cardinal", "Mars"⟩,
    ⟨"Taurus", "♉", "Earth", "Fixed", "Venus"⟩,
    ⟨"Gemini", "♊", "Air", "Mutable", "Mercury"⟩,
    ⟨"Cancer", "♋", "Water", "Cardinal", "Moon"⟩,
    ⟨"Leo", "♌", "Fire", "Fixed", "Sun"⟩,
    ⟨"Virgo", "♍", "Earth", "Mutable", "Mercury"⟩,
    ⟨"Libra", "♎", "Air", "Cardinal", "Venus"⟩,
    ⟨"Scorpio", "♏", "Water", "Fixed", "Mars"⟩,
    ⟨"Sagittarius", "♐", "Fire", "Mutable", "Jupiter"⟩,
    ⟨"Capricorn", "♑", "Earth", "Cardinal", "Saturn"⟩,
    ⟨"Aquarius", "♒", "Air", "Fixed", "Saturn"⟩,
    ⟨"Pisces", "♓", "Water", "Mutable", "Jupiter"⟩ ]

/-- The dictionary returned by `ZodiacCalculator.ecliptic_to_zodiac`. -/
structure ZodiacInfo where
  name : String
  symbol : String
  element : String
  quality : String
  ruler : String
  degree : ℚ
  absolute_degree : ℚ
  degree_minutes : ℤ
  degree_seconds : ℤ
  position_string : String
deriving DecidableEq

/-- `ZodiacCalculator.ecliptic_to_zodiac`: longitude → sign record. -/
def ecliptic_to_zodiac (ecliptic_longitude : ℚ) : ZodiacInfo :=
  let longitude := normalize ecliptic_longitude
  let sign_index := (⌊longitude / 30⌋).toNat
  let degree_in_sign := pymod longitude 30
  let s := ZODIAC_SIGNS.getD sign_index ⟨"", "", "", "", ""⟩
  { name := s.name
    symbol := s.symbol
    element := s.element
    quality := s.quality
    ruler := s.ruler
    degree := degree_in_sign
    absolute_degree := longitude
    degree_minutes := pyint (pymod degree_in_sign 1 * 60)
    degree_seconds := pyint (pymod (pymod degree_in_sign 1 * 60) 1 * 60)
    position_string :=
      toString (pyint degree_in_sign) ++ "°" ++
        pad2 (pyint (pymod degree_in_sign 1 * 60)) ++ "' " ++ s.symbol }

/-- `ZodiacCalculator.get_zodiac_sign_info`: case-insensitive name lookup. -/
def get_zodiac_sign_info (sign_name : String) : Option SignInfo :=
  ZODIAC_SIGNS.find? (fun sign => strLower sign.name == strLower sign_name)

/-- Result of `get_zodiac_compatibility`: either the early-exit record
`{'compatibility': …, 'reason': …}` or the full compatibility record. -/
inductive CompatResult where
  | unknown (compatibility reason : String)
  | result (sign1 sign2 element_compatibility quality_compatibility
      overall_compatibility description : String)
deriving DecidableEq

/-- The `element_compatibility` field (empty for the early-exit record). -/
def CompatResult.elementComp : CompatResult → String
  | .unknown _ _ => ""
  | .result _ _ e _ _ _ => e

/-- The `quality_compatibility` field (empty for the early-exit record). -/
def CompatResult.qualityComp : CompatResult → String
  | .unknown _ _ => ""
  | .result _ _ _ q _ _ => q

/-- The `overall_compatibility` field (empty for the early-exit record). -/
def CompatResult.overallComp : CompatResult → String
  | .unknown _ _ => ""
  | .result _ _ _ _ o _ => o

/-- The element table of `get_zodiac_compatibility` in source order. -/
def element_compatibility_table : List ((String × String) × String) :=
  [ (("Fire", "Fire"), "High"),
    (("Fire", "Air"), "High"),
    (("Fire", "Water"), "Low"),
    (("Fire", "Earth"), "Medium"),
    (("Earth", "Earth"), "High"),
    (("Earth", "Water"), "High"),
    (("Earth", "Air"), "Low"),
    (("Air", "Air"), "High"),
    (("Air", "Water"), "Low"),
    (("Water", "Water"), "High") ]

/-- The quality table of `get_zodiac_compatibility` in source order. -/
def quality_compatibility_table : List ((String × String) × String) :=
  [ (("Cardinal", "Cardinal"), "Medium"),
    (("Cardinal", "Fixed"), "Low"),
    (("Cardinal", "Mutable"), "High"),
    (("Fixed", "Fixed"), "Low"),
    (("Fixed", "Mutable"), "Medium"),
    (("Mutable", "Mutable"), "High") ]

/-- Python dict lookup `d.get(k)` on an association list. -/
def tableGet (t : List ((String × String) × String)) (k : String × String) :
    Option String :=
  (t.find? (fun p => p.1 == k)).map (fun p => p.2)

/-- The `comp_scores` dict {'High': 3, 'Medium': 2, 'Low': 1}. -/
def comp_score (s : String) : ℚ :=
  if s = "High" then 3 else if s = "Medium" then 2 else 1

/-- `ZodiacCalculator.get_zodiac_compatibility`, faithful to the source:
pair lookup with reversed-pair fallback and `.get(_, 'Medium')` default,
then banding of the average score. -/
def get_zodiac_compatibility (sign1 sign2 : String) : CompatResult :=
  match get_zodiac_sign_info sign1, get_zodiac_sign_info sign2 with
  | some info1, some info2 =>
    let element_pair :=
      if (tableGet element_compatibility_table (info1.element, info2.element)).isSome
      then (info1.element, info2.element) else (info2.element, info1.element)
    let element_comp := (tableGet element_compatibility_table element_pair).getD "Medium"
    let quality_pair :=
      if (tableGet quality_compatibility_table (info1.quality, info2.quality)).isSome
      then (info1.quality, info2.quality) else (info2.quality, info1.quality)
    let quality_comp := (tableGet quality_compatibility_table quality_pair).getD "Medium"
    let avg_score := (comp_score element_comp + comp_score quality_comp) / 2
    let overall :=
      if avg_score ≥ 5/2 then "High" else if avg_score ≥ 3/2 then "Medium" else "Low"
    .result sign1 sign2 element_comp quality_comp overall
      (sign1 ++ " (" ++ info1.element ++ ", " ++ info1.quality ++ ") and " ++
        sign2 ++ " (" ++ info2.element ++ ", " ++ info2.quality ++ ")")
  | _, _ => .unknown "Unknown" "Invalid zodiac sign"

/-- `ZodiacCalculator.calculate_midpoint`. -/
def calculate_midpoint (pos1 pos2 : ℚ) : ℚ :=
  let p1 := normalize pos1
  let p2 := normalize pos2
  let diff := |p2 - p1|
  let midpoint := if diff > 180 then (p1 + p2 + 360) / 2 else (p1 + p2) / 2
  normalize midpoint

/- ### AspectsCalculator (qucanft/aspects.py) -/

/-- One entry of the aspect catalogs (name, degrees, base orb, symbol, nature). -/
structure AspectInfo where
  name : String
  degrees : ℚ
  orb : ℚ
  symbol : String
  nature : String
deriving DecidableEq

/-- `AspectsCalculator.MAJOR_ASPECTS` in source order. -/
def MAJOR_ASPECTS : List AspectInfo :=
  [ ⟨"Conjunction", 0, 8, "☌", "Neutral"⟩,
    ⟨"Sextile", 60, 6, "⚹", "Harmonious"⟩,
    ⟨"Square", 90, 8, "□", "Challenging"⟩,
    ⟨"Trine", 120, 8, "△", "Harmonious"⟩,
    ⟨"Opposition", 180, 8, "☍", "Challenging"⟩ ]

/-- `AspectsCalculator.MINOR_ASPECTS` in source order. -/
def MINOR_ASPECTS : List AspectInfo :=
  [ ⟨"Semisextile", 30, 3, "⚺", "Mild"⟩,
    ⟨"Semisquare", 45, 3, "∠", "Challenging"⟩,
    ⟨"Sesquiquadrate", 135, 3, "⚼", "Challenging"⟩,
    ⟨"Quincunx", 150, 3, "⚻", "Adjusting"⟩,
    ⟨"Quintile", 72, 2, "Q", "Creative"⟩,
    ⟨"Biquintile", 144, 2, "bQ", "Creative"⟩,
    ⟨"Septile", 257/5, 1, "S", "Spiritual"⟩,
    ⟨"Novile", 40, 1, "N", "Spiritual"⟩ ]

/-- `self.aspects` after `__init__(include_minor_aspects)`: the majors,
updated with the minors when requested (disjoint keys, so list append). -/
def aspectsCatalog (include_minor_aspects : Bool) : List AspectInfo :=
  if include_minor_aspects then MAJOR_ASPECTS ++ MINOR_ASPECTS else MAJOR_ASPECTS

/-- `AspectsCalculator.PLANET_ORB_ADJUSTMENTS`. -/
def PLANET_ORB_ADJUSTMENTS : List (String × ℚ) :=
  [ ("Sun", 3/2), ("Moon", 3/2), ("Mercury", 1), ("Venus", 1), ("Mars", 1),
    ("Jupiter", 6/5), ("Saturn", 6/5), ("Uranus", 4/5), ("Neptune", 4/5),
    ("Pluto", 4/5) ]

/-- `self.PLANET_ORB_ADJUSTMENTS.get(planet, 1.0)`. -/
def orbAdjustment (planet : String) : ℚ :=
  ((PLANET_ORB_ADJUSTMENTS.find? (fun p => p.1 == planet)).map (fun p => p.2)).getD 1

/-- `AspectsCalculator.calculate_angular_distance`. -/
def calculate_angular_distance (pos1 pos2 : ℚ) : ℚ :=
  let p1 := normalize pos1
  let p2 := normalize pos2
  let diff := |p2 - p1|
  min diff (360 - diff)

/-- One element of the list `find_aspects_between_planets` returns. -/
structure AspectRecord where
  aspect : String
  planet1 : String
  planet2 : String
  degrees : ℚ
  orb_used : ℚ
  orb_difference : ℚ
  exactness : ℚ
  symbol : String
  nature : String
  applying : String
  angular_distance : ℚ
deriving DecidableEq

/-- `AspectsCalculator.find_aspects_between_planets`, over the active
catalog `aspects` (the `self.aspects` of the calculator). -/
def find_aspects_between_planets (aspects : List AspectInfo)
    (planet1 : String) (pos1 : ℚ) (planet2 : String) (pos2 : ℚ) :
    List AspectRecord :=
  let angular_distance := calculate_angular_distance pos1 pos2
  aspects.filterMap (fun a =>
    let orb_adjustment := max (orbAdjustment planet1) (orbAdjustment planet2)
    let adjusted_orb := a.orb * orb_adjustment
    let orb_difference := |angular_distance - a.degrees|
    if orb_difference ≤ adjusted_orb then
      some { aspect := a.name
             planet1 := planet1
             planet2 := planet2
             degrees := a.degrees
             orb_used := adjusted_orb
             orb_difference := orb_difference
             exactness := (adjusted_orb - orb_difference) / adjusted_orb * 100
             symbol := a.symbol
             nature := a.nature
             applying := "Unknown"
             angular_distance := angular_distance }
    else none)

/- ### HousesCalculator (qucanft/houses.py) -/

/-- `HousesCalculator.calculate_equal_houses` as a cusp function on the
house numbers 1..12. -/
def calculate_equal_houses (ascendant : ℚ) : ℕ → ℚ :=
  fun house_num => normalize (ascendant + ((house_num : ℚ) - 1) * 30)

/-- `HousesCalculator.calculate_whole_sign_houses`. -/
def calculate_whole_sign_houses (ascendant : ℚ) : ℕ → ℚ :=
  fun house_num =>
    normalize ((⌊ascendant / 30⌋ : ℚ) * 30 + ((house_num : ℚ) - 1) * 30)

/-- The membership test of `determine_planet_house`'s loop body: the branch
on `cusp_current > cusp_next` (the span crossing 0°) and the two interval
tests of the source. -/
def houseSpanTest (x cusp_current cusp_next : ℚ) : Bool :=
  if cusp_next < cusp_current then
    decide (cusp_current ≤ x) || decide (x < cusp_next)
  else
    decide (cusp_current ≤ x) && decide (x < cusp_next)

/-- `HousesCalculator.determine_planet_house`: first house 1..12 whose span
holds the (normalized) longitude, else the fallback house 1. -/
def determine_planet_house (planet_longitude : ℚ) (house_cusps : ℕ → ℚ) : ℕ :=
  let x := normalize planet_longitude
  match (List.range' 1 12).find? (fun house_num =>
      houseSpanTest x (house_cusps house_num)
        (house_cusps (if house_num < 12 then house_num + 1 else 1))) with
  | some house_num => house_num
  | none => 1

/-- `HousesCalculator.calculate_placidus_houses` (simplified Placidus):
angular cusps fixed, intermediate cusps interpolated in thirds; `latitude`
is accepted and unused, as in the source. -/
def calculate_placidus_houses (ascendant midheaven latitude : ℚ) : ℕ → ℚ :=
  fun house_num =>
    let house4 := normalize (midheaven + 180)
    let house7 := normalize (ascendant + 180)
    if house_num = 1 then ascendant
    else if house_num = 4 then house4
    else if house_num = 7 then house7
    else if house_num = 10 then midheaven
    else if house_num = 2 ∨ house_num = 3 then
      let factor := ((house_num : ℚ) - 1) / 3
      let d0 := pymod (midheaven - ascendant) 360
      let angle_diff := if d0 > 180 then 360 - d0 else d0
      normalize (ascendant + factor * angle_diff)
    else if house_num = 5 ∨ house_num = 6 then
      let factor := ((house_num : ℚ) - 4) / 3
      let d0 := pymod (house7 - midheaven) 360
      let angle_diff := if d0 > 180 then 360 - d0 else d0
      normalize (midheaven + factor * angle_diff)
    else if house_num = 8 ∨ house_num = 9 then
      let factor := ((house_num : ℚ) - 7) / 3
      let d0 := pymod (house4 - house7) 360
      let angle_diff := if d0 > 180 then 360 - d0 else d0
      normalize (house7 + factor * angle_diff)
    else if house_num = 11 ∨ house_num = 12 then
      let factor := ((house_num : ℚ) - 10) / 3
      let d0 := pymod (ascendant - house4) 360
      let angle_diff := if d0 > 180 then 360 - d0 else d0
      normalize (house4 + factor * angle_diff)
    else 0

/-- `HousesCalculator.calculate_houses`. The `ValueError` of the Placidus
branch is the `Except.error`; the printed warning of the unrecognized-system
branch is the boolean flag of the result. -/
def calculate_houses (ascendant : ℚ) (midheaven latitude : Option ℚ)
    (house_system : String) : Except String ((ℕ → ℚ) × Bool) :=
  let hs := strLower house_system
  if hs = "equal" then .ok (calculate_equal_houses ascendant, false)
  else if hs = "whole" then .ok (calculate_whole_sign_houses ascendant, false)
  else if hs = "placidus" then
    match midheaven, latitude with
    | some mc, some lat => .ok (calculate_placidus_houses ascendant mc lat, false)
    | _, _ => .error "Placidus system requires midheaven and latitude"
  else .ok (calculate_equal_houses ascendant, true)

/- ### Claim theorems -/

/-- C7: for all angles `a` and `b`, `calculate_angular_distance a b` is
symmetric in its arguments, lies in `[0, 180]`, and vanishes exactly when
`a` and `b` are congruent modulo 360. -/
theorem angular_distance_symm_range_zero_iff (a b : ℚ) :
    calculate_angular_distance a b = calculate_angular_distance b a ∧
    0 ≤ calculate_angular_distance a b ∧
    calculate_angular_distance a b ≤ 180 ∧
    (calculate_angular_distance a b = 0 ↔ ∃ k : ℤ, a - b = 360 * k) := by
  have hs0 := normalize_nonneg a
  have hs1 := normalize_lt a
  have he0 := normalize_nonneg b
  have he1 := normalize_lt b
  simp only [calculate_angular_distance]
  have habs : |normalize b - normalize a| < 360 := by
    rw [abs_lt]; constructor <;> linarith
  have habs0 : 0 ≤ |normalize b - normalize a| := abs_nonneg _
  refine ⟨by rw [abs_sub_comm], le_min habs0 (by linarith), ?_, ?_⟩
  · rcases le_or_lt |normalize b - normalize a| 180 with h | h
    · exact le_trans (min_le_left _ _) h
    · exact le_trans (min_le_right _ _) (by linarith)
  · constructor
    · intro h
      have hzero : |normalize b - normalize a| = 0 := by
        rcases min_eq_iff.mp h with ⟨h1, _⟩ | ⟨h1, _⟩
        · exact h1
        · linarith
      have heq : normalize a = normalize b := by
        have := abs_eq_zero.mp hzero
        linarith [this]
      obtain ⟨k, hk⟩ := (normalize_eq_normalize_iff a b).mp heq
      exact ⟨k, hk⟩
    · rintro ⟨k, hk⟩
      have heq : normalize a = normalize b :=
        (normalize_eq_normalize_iff a b).mpr ⟨k, hk⟩
      rw [heq, sub_self, abs_zero]
      simp

/-- C3: `ecliptic_to_zodiac` uses the sign of index `⌊(L mod 360)/30⌋`,
an integer in `[0, 11]`; its `degree` field is `(L mod 360) mod 30`, which
lies in `[0, 30)`; and shifting the longitude by full turns keeps the sign. -/
theorem ecliptic_to_zodiac_sign_degree_periodic (L : ℚ) :
    (0 ≤ ⌊pymod L 360 / 30⌋ ∧ ⌊pymod L 360 / 30⌋ ≤ 11) ∧
    (ecliptic_to_zodiac L).name =
      (ZODIAC_SIGNS.getD (⌊pymod L 360 / 30⌋).toNat ⟨"", "", "", "", ""⟩).name ∧
    (ecliptic_to_zodiac L).degree = pymod (pymod L 360) 30 ∧
    0 ≤ (ecliptic_to_zodiac L).degree ∧ (ecliptic_to_zodiac L).degree < 30 ∧
    ∀ k : ℤ, (ecliptic_to_zodiac (L + 360 * k)).name = (ecliptic_to_zodiac L).name := by
  refine ⟨⟨?_, ?_⟩, rfl, rfl, ?_, ?_, ?_⟩
  · exact Int.floor_nonneg.mpr (div_nonneg (normalize_nonneg L) (by norm_num))
  · have h : pymod L 360 / 30 < 12 := by
      rw [div_lt_iff₀ (by norm_num : (0:ℚ) < 30)]
      have := normalize_lt L
      simp only [normalize] at this
      linarith
    have h2 : ⌊pymod L 360 / 30⌋ < (12 : ℤ) := Int.floor_lt.mpr (by push_cast; linarith)
    omega
  · exact pymod_nonneg _ (by norm_num)
  · exact pymod_lt _ (by norm_num)
  · intro k
    simp only [ecliptic_to_zodiac]
    rw [normalize_add_int_mul]

/-- C9: when the normalized positions are exactly 180° apart,
`calculate_midpoint` takes the non-crossing branch and returns the plain
average of the normalized positions (mod 360); its result always lies in
`[0, 360)`. -/
theorem midpoint_antipodal_and_range (pos1 pos2 : ℚ) :
    (|normalize pos2 - normalize pos1| = 180 →
      calculate_midpoint pos1 pos2 =
        normalize ((normalize pos1 + normalize pos2) / 2)) ∧
    0 ≤ calculate_midpoint pos1 pos2 ∧ calculate_midpoint pos1 pos2 < 360 := by
  refine ⟨?_, normalize_nonneg _, normalize_lt _⟩
  intro h
  simp only [calculate_midpoint, h]
  norm_num

/-- Witness for C9 at positions 0 and 180. -/
theorem midpoint_antipodal_witness :
    |normalize (180 : ℚ) - normalize 0| = 180 ∧
    calculate_midpoint 0 180 = normalize ((normalize 0 + normalize 180) / 2) := by
  have h : |normalize (180 : ℚ) - normalize 0| = 180 := by
    norm_num [normalize, pymod]
  exact ⟨h, (midpoint_antipodal_and_range 0 180).1 h⟩

/-- C10: a sign name matching none of the 12 sign names case-insensitively
makes `get_zodiac_compatibility` return the early-exit record
`{'compatibility': 'Unknown', 'reason': 'Invalid zodiac sign'}` (in either
argument position), with no exception and no ratings. -/
theorem compatibility_invalid_sign (sign1 sign2 : String)
    (h : ∀ sign ∈ ZODIAC_SIGNS, strLower sign.name ≠ strLower sign1) :
    get_zodiac_compatibility sign1 sign2 = .unknown "Unknown" "Invalid zodiac sign" ∧
    get_zodiac_compatibility sign2 sign1 = .unknown "Unknown" "Invalid zodiac sign" := by
  have hnone : get_zodiac_sign_info sign1 = none := by
    rw [get_zodiac_sign_info, List.find?_eq_none]
    intro sign hs
    simpa using h sign hs
  constructor
  · rcases h2 : get_zodiac_sign_info sign2 with _ | i2 <;>
      simp only [get_zodiac_compatibility, hnone, h2]
  · rcases h2 : get_zodiac_sign_info sign2 with _ | i2 <;>
      simp only [get_zodiac_compatibility, hnone, h2]

/-- Witness for C10 with the invalid name "Foo". -/
theorem compatibility_invalid_sign_witness :
    get_zodiac_compatibility "Foo" "Aries" = .unknown "Unknown" "Invalid zodiac sign" ∧
    get_zodiac_compatibility "Aries" "Foo" = .unknown "Unknown" "Invalid zodiac sign" :=
  compatibility_invalid_sign "Foo" "Aries" (by decide)

/-- C8: the position string is built from the truncated (never rounded)
degree and minute integers, and longitude 45.5° is 15.5° Taurus rendered
"15°30' ♉"; a degree fraction of 0.999 renders with degree digit 0. -/
theorem position_string_truncation_scenario :
    (∀ L : ℚ, (ecliptic_to_zodiac L).position_string =
      toString (pyint (ecliptic_to_zodiac L).degree) ++ "°" ++
        pad2 (pyint (pymod (ecliptic_to_zodiac L).degree 1 * 60)) ++ "' " ++
        (ecliptic_to_zodiac L).symbol) ∧
    (ecliptic_to_zodiac 45.5).name = "Taurus" ∧
    (ecliptic_to_zodiac 45.5).degree = 15.5 ∧
    (ecliptic_to_zodiac 45.5).position_string = "15°30' ♉" ∧
    (ecliptic_to_zodiac (999/1000)).position_string = "0°59' ♈" := by
  refine ⟨fun L => rfl, ?_, ?_, ?_, ?_⟩
  · norm_num [ecliptic_to_zodiac, normalize, pymod, ZODIAC_SIGNS]
  · norm_num [ecliptic_to_zodiac, normalize, pymod]
  · norm_num [ecliptic_to_zodiac, normalize, pymod, ZODIAC_SIGNS, pyint, pad2]
    decide
  · norm_num [ecliptic_to_zodiac, normalize, pymod, ZODIAC_SIGNS, pyint, pad2]
    decide

/-- The spec's score map {High: 3, Medium: 2, Low: 1}, written from the
spec's words for comparison with the code's banding. -/
def spec_score (s : String) : ℚ :=
  if s = "High" then 3 else if s = "Medium" then 2 else 1

/-- The spec's banding of an average score (avg ≥ 2.5 → High,
avg ≥ 1.5 → Medium, else Low), written from the spec's words. -/
def spec_band (avg : ℚ) : String :=
  if avg ≥ 5/2 then "High" else if avg ≥ 3/2 then "Medium" else "Low"

/-- Every one of the 12 sign names resolves through the case-insensitive
lookup. -/
theorem sign_info_isSome :
    ∀ s ∈ ZODIAC_SIGNS.map SignInfo.name, (get_zodiac_sign_info s).isSome = true := by
  decide

/-- C6: for every pair of the 12 sign names, the overall compatibility is
the banding of the average of the mapped element/quality scores; a
Fire/Water element pair rates Low and an Earth/Water element pair rates
High (witnessed by Aries/Cancer and Taurus/Cancer). -/
theorem zodiac_compatibility_banding :
    (∀ s1 ∈ ZODIAC_SIGNS.map SignInfo.name, ∀ s2 ∈ ZODIAC_SIGNS.map SignInfo.name,
      (get_zodiac_compatibility s1 s2).overallComp =
        spec_band ((spec_score (get_zodiac_compatibility s1 s2).elementComp +
          spec_score (get_zodiac_compatibility s1 s2).qualityComp) / 2)) ∧
    (get_zodiac_compatibility "Aries" "Cancer").elementComp = "Low" ∧
    (get_zodiac_compatibility "Taurus" "Cancer").elementComp = "High" := by
  refine ⟨?_, by decide, by decide⟩
  intro s1 hs1 s2 hs2
  obtain ⟨i1, h1⟩ := Option.isSome_iff_exists.mp (sign_info_isSome s1 hs1)
  obtain ⟨i2, h2⟩ := Option.isSome_iff_exists.mp (sign_info_isSome s2 hs2)
  simp only [get_zodiac_compatibility, h1, h2, CompatResult.overallComp,
    CompatResult.elementComp, CompatResult.qualityComp, spec_band, spec_score,
    comp_score]

/-- Witness for C6 at the pair Aries/Cancer. -/
theorem zodiac_compatibility_banding_witness :
    (get_zodiac_compatibility "Aries" "Cancer").overallComp =
      spec_band ((spec_score (get_zodiac_compatibility "Aries" "Cancer").elementComp +
        spec_score (get_zodiac_compatibility "Aries" "Cancer").qualityComp) / 2) :=
  zodiac_compatibility_banding.1 "Aries" (by decide) "Cancer" (by decide)

/-- C5: `calculate_houses` fails (with a typed error, producing no cusps)
exactly when the Placidus system is requested with midheaven or latitude
absent, and any unrecognized system name yields the Equal-house cusps
together with the warning flag. -/
theorem calculate_houses_error_and_default (ascendant : ℚ)
    (midheaven latitude : Option ℚ) (house_system : String) :
    ((∃ e, calculate_houses ascendant midheaven latitude house_system =
        Except.error e) ↔
      (strLower house_system = "placidus" ∧ (midheaven = none ∨ latitude = none))) ∧
    (strLower house_system ∉ (["equal", "whole", "placidus"] : List String) →
      calculate_houses ascendant midheaven latitude house_system =
        Except.ok (calculate_equal_houses ascendant, true)) := by
  constructor
  · by_cases h1 : strLower house_system = "equal"
    · simp [calculate_houses, h1]
    · by_cases h2 : strLower house_system = "whole"
      · simp [calculate_houses, h1, h2]
      · by_cases h3 : strLower house_system = "placidus"
        · rcases midheaven with _ | mc <;> rcases latitude with _ | lat <;>
            simp [calculate_houses, h1, h2, h3]
        · simp [calculate_houses, h1, h2, h3]
  · intro hnot
    simp only [List.mem_cons, List.mem_singleton, not_or] at hnot
    obtain ⟨h1, h2, h3⟩ := hnot
    simp [calculate_houses, h1, h2, h3]

/-- Witness for C5 with the unrecognized system name "koch". -/
theorem calculate_houses_default_witness :
    calculate_houses 0 none none "koch" =
      Except.ok (calculate_equal_houses 0, true) :=
  (calculate_houses_error_and_default 0 none none "koch").2 (by decide)

/-- Every multiplier in the orb table is positive, so the looked-up
adjustment (default 1.0) is always positive. -/
theorem orbAdjustment_pos (planet : String) : 0 < orbAdjustment planet := by
  rw [orbAdjustment]
  rcases h : PLANET_ORB_ADJUSTMENTS.find? (fun p => p.1 == planet) with _ | x
  · rw [h]; norm_num
  · rw [h]
    have hx := List.mem_of_find?_eq_some h
    have hall : ∀ y ∈ PLANET_ORB_ADJUSTMENTS, (0 : ℚ) < y.2 := by
      intro y hy
      fin_cases hy <;> norm_num
    simpa using hall x hx

/-- The aspect names of either active catalog are pairwise distinct. -/
theorem catalog_names_nodup (minor : Bool) :
    ((aspectsCatalog minor).map AspectInfo.name).Nodup := by
  cases minor <;> decide

/-- Membership in the output of `find_aspects_between_planets`: a catalog
entry whose orb condition holds contributes exactly its record. -/
theorem find_aspects_mem_of_cond (aspects : List AspectInfo)
    (entry : AspectInfo) (hentry : entry ∈ aspects)
    (planet1 : String) (pos1 : ℚ) (planet2 : String) (pos2 : ℚ)
    (hcond : |calculate_angular_distance pos1 pos2 - entry.degrees| ≤
      entry.orb * max (orbAdjustment planet1) (orbAdjustment planet2)) :
    ({ aspect := entry.name
       planet1 := planet1
       planet2 := planet2
       degrees := entry.degrees
       orb_used := entry.orb * max (orbAdjustment planet1) (orbAdjustment planet2)
       orb_difference := |calculate_angular_distance pos1 pos2 - entry.degrees|
       exactness :=
         (entry.orb * max (orbAdjustment planet1) (orbAdjustment planet2) -
           |calculate_angular_distance pos1 pos2 - entry.degrees|) /
           (entry.orb * max (orbAdjustment planet1) (orbAdjustment planet2)) * 100
       symbol := entry.symbol
       nature := entry.nature
       applying := "Unknown"
       angular_distance := calculate_angular_distance pos1 pos2 } : AspectRecord) ∈
      find_aspects_between_planets aspects planet1 pos1 planet2 pos2 := by
  simp only [find_aspects_between_planets, List.mem_filterMap]
  exact ⟨entry, hentry, by rw [if_pos hcond]⟩

/-- C1: an aspect record is emitted for a catalog entry exactly when the
angular distance is within the planet-adjusted orb of that entry (absent
bodies defaulting to multiplier 1.0); every emitted record carries
`exactness = (orb_used − orb_difference)/orb_used·100`; and bodies at
longitudes 0° and 90° match Square with orb difference 0 and exactness
100. -/
theorem find_aspects_characterization :
    (∀ (minor : Bool), ∀ entry ∈ aspectsCatalog minor,
      ∀ (planet1 : String) (pos1 : ℚ) (planet2 : String) (pos2 : ℚ),
      ((∃ r ∈ find_aspects_between_planets (aspectsCatalog minor)
            planet1 pos1 planet2 pos2, r.aspect = entry.name) ↔
        |calculate_angular_distance pos1 pos2 - entry.degrees| ≤
          entry.orb * max (orbAdjustment planet1) (orbAdjustment planet2))) ∧
    (∀ (aspects : List AspectInfo) (planet1 : String) (pos1 : ℚ)
        (planet2 : String) (pos2 : ℚ),
      ∀ r ∈ find_aspects_between_planets aspects planet1 pos1 planet2 pos2,
        r.exactness = (r.orb_used - r.orb_difference) / r.orb_used * 100) ∧
    (∀ planet1 planet2 : String,
      ∃ r ∈ find_aspects_between_planets (aspectsCatalog true) planet1 0 planet2 90,
        r.aspect = "Square" ∧ r.orb_difference = 0 ∧ r.exactness = 100) := by
  have hexact : ∀ (aspects : List AspectInfo) (planet1 : String) (pos1 : ℚ)
      (planet2 : String) (pos2 : ℚ),
      ∀ r ∈ find_aspects_between_planets aspects planet1 pos1 planet2 pos2,
        r.exactness = (r.orb_used - r.orb_difference) / r.orb_used * 100 := by
    intro aspects planet1 pos1 planet2 pos2 r hr
    simp only [find_aspects_between_planets, List.mem_filterMap] at hr
    obtain ⟨a, _, hfa⟩ := hr
    by_cases hc : |calculate_angular_distance pos1 pos2 - a.degrees| ≤
        a.orb * max (orbAdjustment planet1) (orbAdjustment planet2)
    · rw [if_pos hc] at hfa
      obtain rfl := Option.some.inj hfa
      rfl
    · rw [if_neg hc] at hfa
      exact absurd hfa (by simp)
  refine ⟨?_, hexact, ?_⟩
  · intro minor entry hentry planet1 pos1 planet2 pos2
    constructor
    · rintro ⟨r, hr, hname⟩
      simp only [find_aspects_between_planets, List.mem_filterMap] at hr
      obtain ⟨a, ha, hfa⟩ := hr
      by_cases hc : |calculate_angular_distance pos1 pos2 - a.degrees| ≤
          a.orb * max (orbAdjustment planet1) (orbAdjustment planet2)
      · rw [if_pos hc] at hfa
        obtain rfl := Option.some.inj hfa
        have haeq : a = entry :=
          List.inj_on_of_nodup_map (catalog_names_nodup minor) ha hentry hname
        rw [← haeq]
        exact hc
      · rw [if_neg hc] at hfa
        exact absurd hfa (by simp)
    · intro hcond
      exact ⟨_, find_aspects_mem_of_cond _ entry hentry planet1 pos1 planet2 pos2
        hcond, rfl⟩
  · intro planet1 planet2
    have had : calculate_angular_distance 0 90 = 90 := by
      norm_num [calculate_angular_distance, normalize, pymod]
    have hadj : (0 : ℚ) < max (orbAdjustment planet1) (orbAdjustment planet2) :=
      lt_of_lt_of_le (orbAdjustment_pos planet1) (le_max_left _ _)
    have hmem : (⟨"Square", 90, 8, "□", "Challenging"⟩ : AspectInfo) ∈
        aspectsCatalog true := by decide
    have hcond : |calculate_angular_distance 0 90 -
        (⟨"Square", 90, 8, "□", "Challenging"⟩ : AspectInfo).degrees| ≤
        (⟨"Square", 90, 8, "□", "Challenging"⟩ : AspectInfo).orb *
          max (orbAdjustment planet1) (orbAdjustment planet2) := by
      rw [had]
      simp only [sub_self, abs_zero]
      positivity
    refine ⟨_, find_aspects_mem_of_cond _ _ hmem planet1 0 planet2 90 hcond,
      rfl, ?_, ?_⟩
    · show |calculate_angular_distance 0 90 - 90| = 0
      rw [had]; norm_num
    · show (8 * max (orbAdjustment planet1) (orbAdjustment planet2) -
          |calculate_angular_distance 0 90 - 90|) /
          (8 * max (orbAdjustment planet1) (orbAdjustment planet2)) * 100 = 100
      rw [had]
      have h8 : (8 : ℚ) * max (orbAdjustment planet1) (orbAdjustment planet2) ≠ 0 := by
        positivity
      field_simp

/-- Witness for C1: the Square entry and the Sun/Moon pair at 0° and 90°. -/
theorem find_aspects_characterization_witness :
    ∃ r ∈ find_aspects_between_planets (aspectsCatalog true) "Sun" 0 "Moon" 90,
      r.aspect = "Square" :=
  (find_aspects_characterization.1 true ⟨"Square", 90, 8, "□", "Challenging"⟩
      (by decide) "Sun" 0 "Moon" 90).mpr (by
    have had : calculate_angular_distance 0 90 = 90 := by
      norm_num [calculate_angular_distance, normalize, pymod]
    rw [had]
    have h1 : (0 : ℚ) < max (orbAdjustment "Sun") (orbAdjustment "Moon") :=
      lt_of_lt_of_le (orbAdjustment_pos "Sun") (le_max_left _ _)
    simp only [sub_self, abs_zero]
    positivity)

/-- The claim's reading of an intermediate cusp: the point at fraction `f`
along the short (≤180°) arc from `a` to `b`, on that short arc's side
(written from the claim's words, to compare with the code). When the short
arc from `a` to `b` runs in the direction of increasing longitude
(`(b − a) mod 360 ≤ 180`) the point is `a + f·d`; otherwise it is
`a − f·d`, with `d` the angular distance. -/
def onShortArcAtFraction (a b p f : ℚ) : Prop :=
  (pymod (b - a) 360 ≤ 180 ∧ p = normalize (a + f * calculate_angular_distance a b)) ∨
  (180 ≤ pymod (b - a) 360 ∧ p = normalize (a - f * calculate_angular_distance a b))

/-- Counterexample to C4 as stated: with ascendant 0° and midheaven 270°
the code puts house 2's cusp at 30°, which is NOT at 1/3 along the short
arc from the ascendant to the midheaven (that point is 330°): the code
interpolates toward increasing longitude even when the short arc lies the
other way. -/
theorem placidus_short_arc_side_counterexample :
    calculate_placidus_houses 0 270 0 2 = 30 ∧
    ¬ onShortArcAtFraction 0 270 (calculate_placidus_houses 0 270 0 2) (1/3) := by
  have h2 : calculate_placidus_houses 0 270 0 2 = 30 := by
    norm_num [calculate_placidus_houses, normalize, pymod]
  refine ⟨h2, ?_⟩
  rw [h2, onShortArcAtFraction]
  have hang : calculate_angular_distance 0 270 = 90 := by
    norm_num [calculate_angular_distance, normalize, pymod]
  rw [hang]
  norm_num [normalize, pymod]

/-- The source's pattern `d0 = (b − a) % 360; if d0 > 180: d0 = 360 − d0`
computes exactly `calculate_angular_distance a b`. -/
theorem flip_pymod_eq_angular (a b : ℚ) :
    (if pymod (b - a) 360 > 180 then 360 - pymod (b - a) 360
     else pymod (b - a) 360) = calculate_angular_distance a b := by
  have hs0 := normalize_nonneg a
  have hs1 := normalize_lt a
  have he0 := normalize_nonneg b
  have he1 := normalize_lt b
  have hsub : pymod (b - a) 360 = normalize (normalize b - normalize a) := by
    rw [normalize_sub_normalize]
    rfl
  simp only [calculate_angular_distance]
  rcases le_or_lt (normalize a) (normalize b) with h | h
  · have hd : normalize (normalize b - normalize a) = normalize b - normalize a :=
      normalize_eq_self (by linarith) (by linarith)
    have habs : |normalize b - normalize a| = normalize b - normalize a :=
      abs_of_nonneg (by linarith)
    rw [hsub, hd, habs]
    rcases le_or_lt (normalize b - normalize a) 180 with h2 | h2
    · rw [if_neg (by linarith)]
      exact (min_eq_left (by linarith)).symm
    · rw [if_pos h2]
      exact (min_eq_right (by linarith)).symm
  · have hd : normalize (normalize b - normalize a) = normalize b - normalize a + 360 :=
      normalize_neg_side (by linarith) (by linarith)
    have habs : |normalize b - normalize a| = -(normalize b - normalize a) :=
      abs_of_neg (by linarith)
    rw [hsub, hd, habs]
    rcases le_or_lt (normalize b - normalize a + 360) 180 with h2 | h2
    · rw [if_neg (by linarith)]
      have hmin : min (-(normalize b - normalize a))
          (360 - -(normalize b - normalize a)) =
          360 - -(normalize b - normalize a) := min_eq_right (by linarith)
      rw [hmin]; ring
    · rw [if_pos h2]
      have hmin : min (-(normalize b - normalize a))
          (360 - -(normalize b - normalize a)) =
          -(normalize b - normalize a) := min_eq_left (by linarith)
      rw [hmin]; ring

/-- Variant of `flip_pymod_eq_angular` with the interpolation factor
distributed into both branches. -/
theorem flip_pymod_eq_angular_mul (f a b : ℚ) :
    (if 180 < pymod (b - a) 360 then f * (360 - pymod (b - a) 360)
     else f * pymod (b - a) 360) = f * calculate_angular_distance a b := by
  rw [← flip_pymod_eq_angular a b]
  split_ifs <;> ring

/-- C4 (amended): the angular cusps are as claimed, and each intermediate
cusp lies at 1/3 or 2/3 of the short-arc angular distance between its
quadrant's bounding angular cusps, measured from the quadrant's starting
cusp in the direction of increasing longitude — not necessarily on the
short arc's own side. -/
theorem placidus_cusps_amended (ascendant midheaven latitude : ℚ) :
    calculate_placidus_houses ascendant midheaven latitude 1 = ascendant ∧
    calculate_placidus_houses ascendant midheaven latitude 10 = midheaven ∧
    calculate_placidus_houses ascendant midheaven latitude 7 =
      normalize (ascendant + 180) ∧
    calculate_placidus_houses ascendant midheaven latitude 4 =
      normalize (midheaven + 180) ∧
    calculate_placidus_houses ascendant midheaven latitude 2 =
      normalize (ascendant +
        1/3 * calculate_angular_distance ascendant midheaven) ∧
    calculate_placidus_houses ascendant midheaven latitude 3 =
      normalize (ascendant +
        2/3 * calculate_angular_distance ascendant midheaven) ∧
    calculate_placidus_houses ascendant midheaven latitude 5 =
      normalize (midheaven +
        1/3 * calculate_angular_distance midheaven (normalize (ascendant + 180))) ∧
    calculate_placidus_houses ascendant midheaven latitude 6 =
      normalize (midheaven +
        2/3 * calculate_angular_distance midheaven (normalize (ascendant + 180))) ∧
    calculate_placidus_houses ascendant midheaven latitude 8 =
      normalize (normalize (ascendant + 180) +
        1/3 * calculate_angular_distance (normalize (ascendant + 180))
          (normalize (midheaven + 180))) ∧
    calculate_placidus_houses ascendant midheaven latitude 9 =
      normalize (normalize (ascendant + 180) +
        2/3 * calculate_angular_distance (normalize (ascendant + 180))
          (normalize (midheaven + 180))) ∧
    calculate_placidus_houses ascendant midheaven latitude 11 =
      normalize (normalize (midheaven + 180) +
        1/3 * calculate_angular_distance (normalize (midheaven + 180)) ascendant) ∧
    calculate_placidus_houses ascendant midheaven latitude 12 =
      normalize (normalize (midheaven + 180) +
        2/3 * calculate_angular_distance (normalize (midheaven + 180)) ascendant) := by
  refine ⟨rfl, rfl, rfl, rfl, ?_, ?_, ?_, ?_, ?_, ?_, ?_, ?_⟩ <;>
    · simp only [calculate_placidus_houses]
      norm_num
      rw [flip_pymod_eq_angular_mul]

/-- The span test against the successor cusp `normalize (c + 30)` holds
exactly when the longitude sits within 30° past `c` along the circle. -/
theorem houseSpanTest_next {c x : ℚ} (hc0 : 0 ≤ c) (hc1 : c < 360)
    (hx0 : 0 ≤ x) (hx1 : x < 360) :
    houseSpanTest x c (normalize (c + 30)) = decide (normalize (x - c) < 30) := by
  by_cases hcase : c + 30 < 360
  · have hnext : normalize (c + 30) = c + 30 :=
      normalize_eq_self (by linarith) hcase
    rw [houseSpanTest, hnext, if_neg (by intro hlt; linarith)]
    by_cases hxc : c ≤ x
    · have hxn : normalize (x - c) = x - c :=
        normalize_eq_self (by linarith) (by linarith)
      rw [hxn]
      rcases lt_or_le x (c + 30) with h | h
      · simp [hxc, h, show x - c < 30 by linarith]
      · simp [hxc, show ¬ (x < c + 30) by linarith,
          show ¬ (x - c < 30) by linarith]
    · push_neg at hxc
      have hxn : normalize (x - c) = x - c + 360 :=
        normalize_neg_side (by linarith) (by linarith)
      rw [hxn]
      simp [show ¬ c ≤ x by linarith, show ¬ (x - c + 360 < 30) by linarith]
  · push_neg at hcase
    have hnext : normalize (c + 30) = c + 30 - 360 := by
      have h0 : normalize (c + 30) = normalize ((c + 30 - 360) + 360) := by
        congr 1; ring
      rw [h0, normalize_add_360]
      exact normalize_eq_self (by linarith) (by linarith)
    rw [houseSpanTest, hnext, if_pos (by linarith)]
    by_cases hxc : c ≤ x
    · have hxn : normalize (x - c) = x - c :=
        normalize_eq_self (by linarith) (by linarith)
      rw [hxn]
      simp [hxc, show x - c < 30 by linarith]
    · push_neg at hxc
      have hxn : normalize (x - c) = x - c + 360 :=
        normalize_neg_side (by linarith) (by linarith)
      rw [hxn]
      rcases lt_or_le x (c + 30 - 360) with h | h
      · simp [show ¬ c ≤ x by linarith, h, show x - c + 360 < 30 by linarith]
      · simp [show ¬ c ≤ x by linarith, show ¬ (x < c + 30 - 360) by linarith,
          show ¬ (x - c + 360 < 30) by linarith]

/-- Under Equal houses, the loop's "next cusp" (house m+1, wrapping 12 → 1)
is 30° past cusp m. -/
theorem equal_cusp_next (a : ℚ) (m : ℕ) (hm1 : 1 ≤ m) (hm12 : m ≤ 12) :
    calculate_equal_houses a (if m < 12 then m + 1 else 1) =
      normalize (calculate_equal_houses a m + 30) := by
  simp only [calculate_equal_houses, normalize_add_left]
  rcases lt_or_le m 12 with h | h
  · rw [if_pos h]
    congr 1
    push_cast
    ring
  · have hm : m = 12 := le_antisymm hm12 h
    subst hm
    rw [if_neg (by norm_num)]
    rw [show a + ((12 : ℕ) - 1 : ℚ) * 30 + 30 = (a + ((1 : ℕ) - 1 : ℚ) * 30) + 360 by
      push_cast; ring]
    rw [normalize_add_360]

/-- The circular offset from cusp m to cusp n under Equal houses is below
30° exactly when the two house numbers agree. -/
theorem equal_cusp_delta (a : ℚ) (m n : ℕ) (hm1 : 1 ≤ m) (hm12 : m ≤ 12)
    (hn1 : 1 ≤ n) (hn12 : n ≤ 12) :
    (normalize (calculate_equal_houses a n - calculate_equal_houses a m) < 30) ↔
      m = n := by
  have hdiff : normalize (calculate_equal_houses a n - calculate_equal_houses a m) =
      normalize (((n : ℚ) - (m : ℚ)) * 30) := by
    simp only [calculate_equal_houses]
    rw [normalize_sub_normalize]
    congr 1
    ring
  rw [hdiff]
  have hmQ1 : (1 : ℚ) ≤ (m : ℚ) := by exact_mod_cast hm1
  have hmQ12 : (m : ℚ) ≤ 12 := by exact_mod_cast hm12
  have hnQ1 : (1 : ℚ) ≤ (n : ℚ) := by exact_mod_cast hn1
  have hnQ12 : (n : ℚ) ≤ 12 := by exact_mod_cast hn12
  rcases le_or_lt (m : ℚ) (n : ℚ) with h | h
  · have hval : normalize (((n : ℚ) - (m : ℚ)) * 30) = ((n : ℚ) - (m : ℚ)) * 30 :=
      normalize_eq_self (by nlinarith) (by nlinarith)
    rw [hval]
    constructor
    · intro hlt
      have : (n : ℚ) - (m : ℚ) < 1 := by nlinarith
      have hle : n ≤ m := by
        by_contra hcon
        push_neg at hcon
        have : (m : ℚ) + 1 ≤ (n : ℚ) := by exact_mod_cast hcon
        linarith
      exact le_antisymm (by exact_mod_cast h) hle
    · intro heq
      subst heq
      norm_num
  · have hval : normalize (((n : ℚ) - (m : ℚ)) * 30) =
        ((n : ℚ) - (m : ℚ)) * 30 + 360 := by
      apply normalize_neg_side
      · nlinarith
      · have : (n : ℚ) + 1 ≤ (m : ℚ) := by
          have : n < m := by exact_mod_cast h
          exact_mod_cast this
        nlinarith
    rw [hval]
    constructor
    · intro hlt
      exfalso
      have : (n : ℚ) + 1 ≤ (m : ℚ) := by
        have hnm : n < m := by exact_mod_cast h
        exact_mod_cast hnm
      nlinarith
    · intro heq
      exfalso
      rw [heq] at h
      exact lt_irrefl _ h

/-- `find?` on a list where the predicate answers `decide (· = n)` returns
`n` as soon as `n` is in the list. -/
theorem find_eq_some_of_pointwise (l : List ℕ) (p : ℕ → Bool) (n : ℕ)
    (hn : n ∈ l) (hp : ∀ m ∈ l, p m = decide (m = n)) : l.find? p = some n := by
  induction l with
  | nil => cases hn
  | cons h t ih =>
    rcases eq_or_ne h n with rfl | hne
    · rw [List.find?_cons_of_pos]
      rw [hp h (List.mem_cons_self h t)]
      simp
    · rw [List.find?_cons_of_neg]
      · apply ih
        · rcases List.mem_cons.mp hn with rfl | ht
          · exact absurd rfl hne
          · exact ht
        · intro m hm
          exact hp m (List.mem_cons_of_mem h hm)
      · rw [hp h (List.mem_cons_self h t)]
        simp [hne]

/-- C2: Equal-house cusp n is `(ascendant + (n−1)·30) mod 360`, and
`determine_planet_house` sends each cusp back to the house it starts. -/
theorem equal_houses_cusps_and_self_house (a : ℚ) (n : ℕ)
    (hn1 : 1 ≤ n) (hn12 : n ≤ 12) :
    calculate_equal_houses a n = normalize (a + ((n : ℚ) - 1) * 30) ∧
    determine_planet_house (calculate_equal_houses a n)
      (calculate_equal_houses a) = n := by
  refine ⟨rfl, ?_⟩
  have hx : normalize (calculate_equal_houses a n) = calculate_equal_houses a n :=
    normalize_normalize _
  have hfind : (List.range' 1 12).find? (fun house_num =>
      houseSpanTest (calculate_equal_houses a n)
        (calculate_equal_houses a house_num)
        (calculate_equal_houses a (if house_num < 12 then house_num + 1 else 1))) =
      some n := by
    apply find_eq_some_of_pointwise
    · rw [List.mem_range'_1]
      omega
    · intro m hm
      rw [List.mem_range'_1] at hm
      have hm1 : 1 ≤ m := hm.1
      have hm12 : m ≤ 12 := by omega
      have hc0 : 0 ≤ calculate_equal_houses a m := normalize_nonneg _
      have hc1 : calculate_equal_houses a m < 360 := normalize_lt _
      have hx0 : 0 ≤ calculate_equal_houses a n := normalize_nonneg _
      have hx1 : calculate_equal_houses a n < 360 := normalize_lt _
      rw [equal_cusp_next a m hm1 hm12, houseSpanTest_next hc0 hc1 hx0 hx1]
      rw [decide_eq_decide]
      exact equal_cusp_delta a m n hm1 hm12 hn1 hn12
  simp only [determine_planet_house, hx, hfind]

/-- Witness for C2: ascendant 75°, house 7 (cusp 255° returns house 7). -/
theorem equal_houses_self_house_witness :
    calculate_equal_houses 75 7 = 255 ∧
    determine_planet_house (calculate_equal_houses 75 7)
      (calculate_equal_houses 75) = 7 := by
  have h := equal_houses_cusps_and_self_house 75 7 (by norm_num) (by norm_num)
  refine ⟨?_, h.2⟩
  rw [h.1]
  norm_num [normalize, pymod]

end Qucanft








